import Mathlib

/-!
Verification of the ClioBulk bulk image-processing core against its
specification.

The development shallowly embeds the parts of the repository that the
checked properties are about:

* `src/utils/webgl-engine.js` — the `WebGLEngine` class: context
  acquisition with WebGL1 fallback (`engineInit`), the WebGL2 and WebGL1
  fragment programs (`fragmentMainWebGL2`, `fragmentMainWebGL1`), and the
  uniform setup performed by `render` (`setupUniforms`, `renderPixel`).
  Colors are exact rationals; texture sampling is a function from
  normalized coordinates to a color.
* the browser processing loop of `startProcessing` in `App.jsx` together
  with the worker reply handler (`loopTrace`, `workerTrace`,
  `browserTrace`) as an event-trace semantics.
* `isRaw` routing from `src/utils/raw-decoder.js` (`isRaw`,
  `routeDecoder`).
* the preview (superpixel) demosaic and trilinear 3D-LUT sampling.  These
  two computations live in the native engine, which is not part of the
  frontend sources; they are modelled from the specification text and the
  repository's own notes, and are marked as such in their doc comments.

All pixel arithmetic is over `ℚ`, matching the shader's real-number
formulas exactly.
-/

namespace ClioBulk

/-- An RGB color triple, components in linear [0,1] space (values are exact
rationals standing for the shader's floats). -/
structure Vec3 where
  r : ℚ
  g : ℚ
  b : ℚ
deriving DecidableEq, Repr

/-- An RGBA color as sampled from a 2D texture (`texture(...)` in GLSL). -/
structure Vec4 where
  r : ℚ
  g : ℚ
  b : ℚ
  a : ℚ
deriving DecidableEq, Repr

/-- The `.rgb` swizzle of GLSL. -/
def Vec4.rgb (c : Vec4) : Vec3 := ⟨c.r, c.g, c.b⟩

/-- Assignment `color.rgb = v` of GLSL: replace the rgb part, keep alpha. -/
def Vec4.setRgb (c : Vec4) (v : Vec3) : Vec4 := ⟨v.r, v.g, v.b, c.a⟩

/-- GLSL `mix(x, y, t) = x * (1 - t) + y * t`. -/
def mix (x y t : ℚ) : ℚ := x * (1 - t) + y * t

/-- Componentwise GLSL `mix` on rgb triples. -/
def mix3 (x y : Vec3) (t : ℚ) : Vec3 := ⟨mix x.r y.r t, mix x.g y.g t, mix x.b y.b t⟩

/-- GLSL `clamp(x, 0.0, 1.0)`. -/
def clamp01 (x : ℚ) : ℚ := max 0 (min x 1)

/-- A normalized watermark rectangle `[x, y, width, height]`, the layout of
the `u_watermarkRect` uniform. -/
structure Rect where
  x : ℚ
  y : ℚ
  w : ℚ
  h : ℚ
deriving DecidableEq, Repr

/-- The uniform state of the WebGL2 fragment program of
`getFragmentShaderSource` (webgl-engine.js lines 33-68).  2D and 3D
textures are modelled as sampling functions. -/
structure ShaderUniforms where
  u_image : ℚ → ℚ → Vec4
  u_lut : Vec3 → Vec3
  u_useLut : Bool
  u_watermark : ℚ → ℚ → Vec4
  u_useWatermark : Bool
  u_watermarkRect : Rect
  u_watermarkOpacity : ℚ

/-- The WebGL2 fragment program body (webgl-engine.js lines 51-67), one
output pixel per invocation at texture coordinate `(vx, vy)`:
sample the image, optionally replace rgb by the 3D-LUT sample, optionally
alpha-blend the watermark over pixels whose rectangle-relative coordinate
lies in [0,1]². -/
def fragmentMainWebGL2 (u : ShaderUniforms) (vx vy : ℚ) : Vec4 :=
  let color := u.u_image vx vy
  let color := if u.u_useLut then color.setRgb (u.u_lut color.rgb) else color
  let color :=
    if u.u_useWatermark then
      let wx := (vx - u.u_watermarkRect.x) / u.u_watermarkRect.w
      let wy := (vy - u.u_watermarkRect.y) / u.u_watermarkRect.h
      if 0 ≤ wx ∧ wx ≤ 1 ∧ 0 ≤ wy ∧ wy ≤ 1 then
        let wmColor := u.u_watermark wx wy
        color.setRgb (mix3 color.rgb wmColor.rgb (wmColor.a * u.u_watermarkOpacity))
      else color
    else color
  color

/-- The WebGL1 fallback fragment program (webgl-engine.js lines 71-78):
`gl_FragColor = texture2D(u_image, v_texCoord)` — a plain passthrough with
no LUT and no watermark uniforms at all. -/
def fragmentMainWebGL1 (image : ℚ → ℚ → Vec4) (vx vy : ℚ) : Vec4 :=
  image vx vy

/-- The observable state the `WebGLEngine` constructor leaves on the
instance: which context was obtained. -/
structure EngineState where
  isWebGL2 : Bool
deriving DecidableEq, Repr

/-- The context-acquisition logic of the `WebGLEngine` constructor
(webgl-engine.js lines 2-19): try `webgl2`; if unavailable fall back to
`webgl` and record `isWebGL2 = false`; if neither exists, throw
`WebGL not supported`. -/
def engineInit (webgl2Supported webglSupported : Bool) : Except String EngineState :=
  if webgl2Supported then Except.ok ⟨true⟩
  else if webglSupported then Except.ok ⟨false⟩
  else Except.error "WebGL not supported"

/-- Modelled from the spec: the per-axis addressing of trilinear 3D-LUT
sampling.  The native LUT sampler is not part of the frontend sources
(`create3DTexture` only uploads the cube with LINEAR filtering); the spec
describes ("LookupTable", §4.2) a uniformly spaced RGB cube of edge `N`
whose lattice point `i` sits at coordinate `i / (N - 1)`, sampled by
interpolating the nearest lattice points.  For a coordinate `x ∈ [0,1]`
this returns the lower lattice index and the interpolation fraction;
the index is kept `≤ N - 2` so the upper tap `i + 1` stays in range
(at `x = 1` the fraction becomes `1`, selecting the last lattice value). -/
def axisParam (N : ℕ) (x : ℚ) : ℕ × ℚ :=
  let M : ℕ := N - 1
  let t : ℚ := max 0 (min (x * M) M)
  let i : ℕ := (Int.floor t).toNat
  let i : ℕ := min i (M - 1)
  (i, t - i)

/-- Modelled from the spec: trilinear sampling of a 3D LUT of edge size `N`
at an rgb coordinate — the three axis parameters select the 8 nearest
lattice points, which are blended by nested linear interpolation
(§3 "LookupTable": "sampling must trilinearly interpolate between the
8 nearest lattice points"). -/
def trilinearSample (N : ℕ) (L : ℕ → ℕ → ℕ → Vec3) (c : Vec3) : Vec3 :=
  let px := axisParam N c.r
  let py := axisParam N c.g
  let pz := axisParam N c.b
  let c00 := mix3 (L px.1 py.1 pz.1) (L (px.1 + 1) py.1 pz.1) px.2
  let c10 := mix3 (L px.1 (py.1 + 1) pz.1) (L (px.1 + 1) (py.1 + 1) pz.1) px.2
  let c01 := mix3 (L px.1 py.1 (pz.1 + 1)) (L (px.1 + 1) py.1 (pz.1 + 1)) px.2
  let c11 := mix3 (L px.1 (py.1 + 1) (pz.1 + 1)) (L (px.1 + 1) (py.1 + 1) (pz.1 + 1)) px.2
  let c0 := mix3 c00 c10 py.2
  let c1 := mix3 c01 c11 py.2
  mix3 c0 c1 pz.2

/-- The `options.lut` argument of `render`: a parsed cube of edge `size`
whose lattice is uploaded by `create3DTexture` (webgl-engine.js lines
146-158) and sampled trilinearly by the `u_lut` sampler. -/
structure LutOption where
  size : ℕ
  data : ℕ → ℕ → ℕ → Vec3

/-- The `options.watermark` argument of `render`: an overlay texture (absent
when the JS value is falsy), an optional normalized rectangle and an
opacity (a plain number; `0` is falsy in JS). -/
structure WatermarkOption where
  image : Option (ℚ → ℚ → Vec4)
  rect : Option Rect
  opacity : ℚ

/-- The `options` argument of `render` (webgl-engine.js line 160). -/
structure RenderOptions where
  lut : Option LutOption
  watermark : Option WatermarkOption

/-- JS `a || b` on a number `a`: `b` when `a` is falsy (`0`), else `a`. -/
def jsOrDefault (a b : ℚ) : ℚ := if a = 0 then b else a

/-- The watermark rectangle `render` substitutes for a missing
`options.watermark.rect`: `[0.8, 0.8, 0.15, 0.15]` (line 206). -/
def defaultWatermarkRect : Rect := ⟨4/5, 4/5, 3/20, 3/20⟩

/-- The uniform assignments performed by `render` (webgl-engine.js lines
183-210): the LUT is bound only when `options.lut` is present AND the
context is WebGL2; the watermark is bound when `options.watermark` and its
`.image` are truthy, with `rect || [0.8,0.8,0.15,0.15]` and
`opacity || 0.5`.  Uniforms that `render` leaves unset are given the
GL zero defaults; the fragment program never reads them when the
corresponding `u_use*` flag is false. -/
def setupUniforms (isWebGL2 : Bool) (image : ℚ → ℚ → Vec4) (opts : RenderOptions) :
    ShaderUniforms :=
  let lutActive := opts.lut.isSome && isWebGL2
  let wmActive := match opts.watermark with
    | some w => w.image.isSome
    | none => false
  { u_image := image
    u_lut := match opts.lut with
      | some l => if isWebGL2 then trilinearSample l.size l.data else fun c => c
      | none => fun c => c
    u_useLut := lutActive
    u_watermark := match opts.watermark with
      | some w => w.image.getD (fun _ _ => ⟨0, 0, 0, 0⟩)
      | none => fun _ _ => ⟨0, 0, 0, 0⟩
    u_useWatermark := wmActive
    u_watermarkRect := match opts.watermark with
      | some w => if w.image.isSome then w.rect.getD defaultWatermarkRect else ⟨0, 0, 0, 0⟩
      | none => ⟨0, 0, 0, 0⟩
    u_watermarkOpacity := match opts.watermark with
      | some w => if w.image.isSome then jsOrDefault w.opacity (1/2) else 0
      | none => 0 }

/-- The per-pixel semantics of one `render` call (webgl-engine.js lines
160-218): set up the uniforms and run the fragment program matching the
context the constructor obtained. -/
def renderPixel (st : EngineState) (image : ℚ → ℚ → Vec4) (opts : RenderOptions)
    (vx vy : ℚ) : Vec4 :=
  if st.isWebGL2 then fragmentMainWebGL2 (setupUniforms true image opts) vx vy
  else fragmentMainWebGL1 image vx vy

/-! ### The §4.2 Adjustment Kernel, written from the specification text

The native per-pixel kernel lives in the Rust engine, which is not among
the frontend sources; for the refinement claim the ordered pipeline of
§4.2 is stated here directly from the spec's formulas, to be compared
with the fragment program above.  The two neighborhood stages (adaptive
threshold, denoise) are window operations over the whole image and are
not per-pixel functions; this model covers the pipeline with both
disabled, which is the regime the per-pixel comparison is about. -/

/-- Modelled from the spec (§4.2): brightness, additive in linear [0,1]
space, `out = clamp(in + brightness, 0, 1)` per channel. -/
def specBrightness (b : ℚ) (c : Vec3) : Vec3 :=
  ⟨clamp01 (c.r + b), clamp01 (c.g + b), clamp01 (c.b + b)⟩

/-- Modelled from the spec (§4.2): contrast, pivot around mid-gray,
`out = clamp((in - 0.5) * contrast + 0.5, 0, 1)` per channel. -/
def specContrast (k : ℚ) (c : Vec3) : Vec3 :=
  ⟨clamp01 ((c.r - 1/2) * k + 1/2), clamp01 ((c.g - 1/2) * k + 1/2),
   clamp01 ((c.b - 1/2) * k + 1/2)⟩

/-- Modelled from the spec (§4.2): saturation around an approximate luma
`L`, `out = clamp(L + (in - L) * saturation, 0, 1)` per channel.  The spec
does not fix the luma coefficients, so the luma function is a parameter. -/
def specSaturation (luma : Vec3 → ℚ) (s : ℚ) (c : Vec3) : Vec3 :=
  let L := luma c
  ⟨clamp01 (L + (c.r - L) * s), clamp01 (L + (c.g - L) * s), clamp01 (L + (c.b - L) * s)⟩

/-- Modelled from the spec (§4.2): a watermark descriptor — overlay image,
normalized rectangle, opacity. -/
structure SpecWatermark where
  overlay : ℚ → ℚ → Vec4
  rect : Rect
  opacity : ℚ

/-- Modelled from the spec (§4.2): watermark composite — alpha-blend the
overlay pixel onto any destination pixel whose normalized coordinate falls
inside the rectangle, by the overlay's alpha times the opacity; outside
pixels unaffected. -/
def specWatermarkStage (w : SpecWatermark) (vx vy : ℚ) (c : Vec3) : Vec3 :=
  if w.rect.x ≤ vx ∧ vx ≤ w.rect.x + w.rect.w ∧ w.rect.y ≤ vy ∧ vy ≤ w.rect.y + w.rect.h then
    let p := w.overlay ((vx - w.rect.x) / w.rect.w) ((vy - w.rect.y) / w.rect.h)
    mix3 c p.rgb (p.a * w.opacity)
  else c

/-- Modelled from the spec (§3 "AdjustmentParams", restricted to the
per-pixel stages): brightness, contrast, saturation, optional LUT,
optional watermark. -/
structure SpecParams where
  brightness : ℚ
  contrast : ℚ
  saturation : ℚ
  lut : Option (Vec3 → Vec3)
  watermark : Option SpecWatermark

/-- Modelled from the spec (§4.2): the fixed-order per-pixel pipeline
brightness → contrast → saturation → optional LUT → optional watermark
composite (adaptive threshold and denoise disabled, see the section
comment). -/
def specAdjustPixel (luma : Vec3 → ℚ) (p : SpecParams) (vx vy : ℚ) (c : Vec3) : Vec3 :=
  let c := specBrightness p.brightness c
  let c := specContrast p.contrast c
  let c := specSaturation luma p.saturation c
  let c := match p.lut with
    | some f => f c
    | none => c
  let c := match p.watermark with
    | some w => specWatermarkStage w vx vy c
    | none => c
  c

/-! ### Preview (superpixel) demosaic

The demosaic also lives in the native engine.  Two models are stated: one
from the specification (§4.1, consulting the CFA descriptor per block)
and one from the repository's own engineering note ("Manual Demosaicing
Assumption": the codebase hardcodes an RGGB layout for all RAW files,
ignoring the actual CFA pattern). -/

/-- The color of a physical sensor filter cell. -/
inductive CFAColor where
  | red
  | green
  | blue
deriving DecidableEq, Repr

/-- A 2×2-periodic CFA descriptor, one color per cell of the period
(§3 "ColorFilterArray descriptor"). -/
structure CFAPattern where
  c00 : CFAColor
  c01 : CFAColor
  c10 : CFAColor
  c11 : CFAColor
deriving DecidableEq, Repr

/-- The CFA descriptor as a function of absolute mosaic coordinates:
the pattern repeats with period 2 in both directions. -/
def CFAPattern.colorAt (p : CFAPattern) (i j : ℕ) : CFAColor :=
  if i % 2 = 0 then (if j % 2 = 0 then p.c00 else p.c01)
  else (if j % 2 = 0 then p.c10 else p.c11)

/-- The four supported sensor orderings (§3). -/
def patternRGGB : CFAPattern := ⟨.red, .green, .green, .blue⟩

def patternBGGR : CFAPattern := ⟨.blue, .green, .green, .red⟩

def patternGRBG : CFAPattern := ⟨.green, .red, .blue, .green⟩

def patternGBRG : CFAPattern := ⟨.green, .blue, .red, .green⟩

/-- The list of all valid supported CFA patterns. -/
def supportedPatterns : List CFAPattern :=
  [patternRGGB, patternBGGR, patternGRBG, patternGBRG]

/-- Modelled from the spec (§4.1, preview demosaic): partition the sensor
grid into 2×2 blocks; for block `(r, c)` read the CFA descriptor at each
of the four cells to locate which hold Red, Green and Blue, and output one
RGB pixel from the actual sample values (averaging the cells of each
color — one red, two green, one blue on a valid pattern). -/
def demosaicSuperpixel (cfa : ℕ → ℕ → CFAColor) (mosaic : ℕ → ℕ → ℚ) (r c : ℕ) : Vec3 :=
  let cells : List (ℕ × ℕ) :=
    [(2 * r, 2 * c), (2 * r, 2 * c + 1), (2 * r + 1, 2 * c), (2 * r + 1, 2 * c + 1)]
  let channel := fun (col : CFAColor) =>
    let vals := (cells.filter (fun q => cfa q.1 q.2 = col)).map (fun q => mosaic q.1 q.2)
    (vals.foldr (· + ·) 0) / (vals.length : ℚ)
  ⟨channel .red, channel .green, channel .blue⟩

/-- The demosaic the repository actually performs, per its note "Manual
Demosaicing Assumption": a fixed RGGB layout is assumed for every RAW
file, so block `(r, c)` always reads red at the top-left cell, green at
the two off-diagonal cells and blue at the bottom-right cell, whatever
the sensor's real CFA pattern. -/
def demosaicSuperpixelRGGB (mosaic : ℕ → ℕ → ℚ) (r c : ℕ) : Vec3 :=
  ⟨mosaic (2 * r) (2 * c),
   (mosaic (2 * r) (2 * c + 1) + mosaic (2 * r + 1) (2 * c)) / 2,
   mosaic (2 * r + 1) (2 * c + 1)⟩

/-- A synthetic mosaic for a given CFA: every cell holds the known value of
its sensor color (`vr` on red cells, `vg` on green, `vb` on blue). -/
def synthMosaic (cfa : ℕ → ℕ → CFAColor) (vr vg vb : ℚ) (i j : ℕ) : ℚ :=
  match cfa i j with
  | .red => vr
  | .green => vg
  | .blue => vb

/-! ### RAW routing (`src/utils/raw-decoder.js`) -/

/-- The extension allowlist of `isRaw` (raw-decoder.js line 32). -/
def rawExtensions : List (List Char) :=
  [".arw".toList, ".cr2".toList, ".nef".toList, ".dng".toList, ".orf".toList, ".raf".toList]

/-- `isRaw` (raw-decoder.js lines 31-34): true when the lowercased file
name ends with one of the six raw extensions.  File names are character
lists; `Char.toLower` models `String.prototype.toLowerCase` on them. -/
def isRaw (name : List Char) : Bool :=
  rawExtensions.any (fun ext => ext.isSuffixOf (name.map Char.toLower))

/-- Which decoder the processing loop picks for a file. -/
inductive Decoder where
  | rawDecoder
  | standardDecoder
deriving DecidableEq, Repr

/-- The decode dispatch of the browser processing loop (App.jsx line 343):
`isRaw({name}) ? decodeRaw(file) : createImageBitmap(file)`. -/
def routeDecoder (name : List Char) : Decoder :=
  if isRaw name then Decoder.rawDecoder else Decoder.standardDecoder

/-! ### The browser processing loop of `startProcessing` (App.jsx)

The browser branch of `startProcessing` (App.jsx lines 333-366) walks the
pending files in order: it marks each `processing`, decodes it (a decode
failure marks the file `error` and `continue`s), posts the decoded bitmap
to the worker, then increments `completed` and calls
`setProgress((completed / pendingFiles.length) * 100)`.  The worker's
reply handler (lines 228-235) later marks each posted job `complete` or
`error`; it never calls `setProgress`.  The trace below records these
store updates, worker posts and progress updates as events, with the
worker replies delivered after the dispatch loop (each reply necessarily
follows its own dispatch). -/

/-- The per-file status values used by `updateFileStatus`. -/
inductive Stage where
  | processing
  | complete
  | error
deriving DecidableEq, Repr

/-- One observable event of the browser processing path. -/
inductive Event where
  | status (id : ℕ) (s : Stage)
  | dispatch (id : ℕ)
  | progress (value : ℚ)
deriving DecidableEq, Repr

/-- One pending file: its id, whether its source decodes, and whether the
worker's processing of it succeeds. -/
structure JobSpec where
  id : ℕ
  decodeOk : Bool
  workerOk : Bool
deriving DecidableEq, Repr

/-- The events emitted by the `for` loop of the browser branch, given the
total pending count `n` and the running `completed` counter: mark
`processing`; on decode failure mark `error` and continue; otherwise post
to the worker, increment `completed`, and set the progress to
`completed / n * 100`. -/
def loopTrace (n : ℕ) : List JobSpec → ℕ → List Event
  | [], _ => []
  | j :: rest, completed =>
    Event.status j.id Stage.processing ::
    (if j.decodeOk then
      Event.dispatch j.id ::
      Event.progress (((completed + 1 : ℕ) : ℚ) / (n : ℚ) * 100) ::
      loopTrace n rest (completed + 1)
    else
      Event.status j.id Stage.error :: loopTrace n rest completed)

/-- The worker replies (App.jsx lines 228-235 and the worker source):
each dispatched job eventually gets exactly one `PROCESS_COMPLETE` or
`ERROR` message, which the handler turns into a terminal `complete` or
`error` status; jobs that failed to decode were never posted and get no
reply. -/
def workerTrace : List JobSpec → List Event
  | [] => []
  | j :: rest =>
    (if j.decodeOk then
      [Event.status j.id (if j.workerOk then Stage.complete else Stage.error)]
    else []) ++ workerTrace rest

/-- The full observable trace of one browser `startProcessing` run over
the pending files. -/
def browserTrace (jobs : List JobSpec) : List Event :=
  loopTrace jobs.length jobs 0 ++ workerTrace jobs

/-- The progress values a trace reports, in order. -/
def progressValues (t : List Event) : List ℚ :=
  t.filterMap (fun e => match e with
    | Event.progress v => some v
    | _ => none)

/-- The number of terminal (`complete` or `error`) status events in a
trace. -/
def terminalCount (t : List Event) : ℕ :=
  (t.filter (fun e => match e with
    | Event.status _ Stage.complete => true
    | Event.status _ Stage.error => true
    | _ => false)).length

/-- The status updates a trace applies to file `id`, in order. -/
def statusOf (id : ℕ) : Event → Option Stage
  | Event.status i s => if i = id then some s else none
  | _ => none

/-- The last status a trace leaves on file `id` — what the store shows
when the batch has settled. -/
def lastStatus (t : List Event) (id : ℕ) : Option Stage :=
  (t.filterMap (statusOf id)).getLast?

/-- The terminal state a job ends in: decode failure or a worker `ERROR`
reply yields `error`, otherwise `complete`. -/
def jobFate (j : JobSpec) : Stage :=
  if j.decodeOk then (if j.workerOk then Stage.complete else Stage.error) else Stage.error

/-- All three components of an rgb triple lie in the linear [0,1] range. -/
def inUnit (c : Vec3) : Prop :=
  0 ≤ c.r ∧ c.r ≤ 1 ∧ 0 ≤ c.g ∧ c.g ≤ 1 ∧ 0 ≤ c.b ∧ c.b ≤ 1

/-- The status stream the loop produces for one file id: `processing`,
then `error` when the decode fails (used to characterize `loopTrace`). -/
def loopStatusLog (id : ℕ) : List JobSpec → List Stage
  | [] => []
  | j :: rest =>
    (if j.id = id then
      (if j.decodeOk then [Stage.processing] else [Stage.processing, Stage.error])
    else []) ++ loopStatusLog id rest

/-- The status stream the worker replies produce for one file id (used to
characterize `workerTrace`). -/
def workerStatusLog (id : ℕ) : List JobSpec → List Stage
  | [] => []
  | j :: rest =>
    (if j.id = id ∧ j.decodeOk then
      [if j.workerOk then Stage.complete else Stage.error]
    else []) ++ workerStatusLog id rest

/-- A concrete uniform state for the watermark scenario of the spec:
uniform white source, constant blue overlay of alpha 1, rectangle
`{x:0.8, y:0.8, w:0.15, h:0.15}`, opacity 0.5, no LUT. -/
def scenarioUniforms : ShaderUniforms :=
  { u_image := fun _ _ => ⟨1, 1, 1, 1⟩
    u_lut := fun c => c
    u_useLut := false
    u_watermark := fun _ _ => ⟨0, 0, 1, 1⟩
    u_useWatermark := true
    u_watermarkRect := defaultWatermarkRect
    u_watermarkOpacity := 1/2 }

/-- Modelled from the spec: the normalized coordinate of lattice index `i`
on one axis of a uniformly spaced cube of edge `N`, `i / (N - 1)`. -/
def latticeCoord (N i : ℕ) : ℚ := (i : ℚ) / ((N - 1 : ℕ) : ℚ)

/-- The midpoint between the coordinates of adjacent lattice indices `i`
and `i + 1`. -/
def midCoord (N i : ℕ) : ℚ := ((i : ℚ) + 1/2) / ((N - 1 : ℕ) : ℚ)

/-- The normalized coordinate of a cube corner on one axis: 0 or 1. -/
def cornerCoord (e : Bool) : ℚ := if e then 1 else 0

/-- The lattice index of a cube corner on one axis of an edge-`N` cube:
0 or `N - 1`. -/
def cornerIndex (N : ℕ) (e : Bool) : ℕ := if e then N - 1 else 0

/-! ## Helper lemmas -/

theorem mix3_zero (x y : Vec3) : mix3 x y 0 = x := by
  simp [mix3, mix]

theorem mix3_one (x y : Vec3) : mix3 x y 1 = y := by
  simp [mix3, mix]

theorem clamp01_eq_self {x : ℚ} (h0 : 0 ≤ x) (h1 : x ≤ 1) : clamp01 x = x := by
  simp [clamp01, min_eq_left h1, max_eq_right h0]

theorem specBrightness_zero (c : Vec3) (h : inUnit c) : specBrightness 0 c = c := by
  obtain ⟨h1, h2, h3, h4, h5, h6⟩ := h
  simp [specBrightness, clamp01_eq_self h1 h2, clamp01_eq_self h3 h4, clamp01_eq_self h5 h6]

theorem specContrast_one (c : Vec3) (h : inUnit c) : specContrast 1 c = c := by
  obtain ⟨h1, h2, h3, h4, h5, h6⟩ := h
  have e : ∀ x : ℚ, (x - 1/2) * 1 + 1/2 = x := by intro x; ring
  simp only [specContrast, e]
  simp [clamp01_eq_self h1 h2, clamp01_eq_self h3 h4, clamp01_eq_self h5 h6]

theorem specSaturation_one (luma : Vec3 → ℚ) (c : Vec3) (h : inUnit c) :
    specSaturation luma 1 c = c := by
  obtain ⟨h1, h2, h3, h4, h5, h6⟩ := h
  have e : ∀ L x : ℚ, L + (x - L) * 1 = x := by intro L x; ring
  simp only [specSaturation, e]
  simp [clamp01_eq_self h1 h2, clamp01_eq_self h3 h4, clamp01_eq_self h5 h6]

theorem colorAt_even_even (p : CFAPattern) (r c : ℕ) : p.colorAt (2 * r) (2 * c) = p.c00 := by
  have h1 : (2 * r) % 2 = 0 := by omega
  have h2 : (2 * c) % 2 = 0 := by omega
  simp [CFAPattern.colorAt, h1, h2]

theorem colorAt_even_odd (p : CFAPattern) (r c : ℕ) : p.colorAt (2 * r) (2 * c + 1) = p.c01 := by
  have h1 : (2 * r) % 2 = 0 := by omega
  have h2 : (2 * c + 1) % 2 = 1 := by omega
  simp [CFAPattern.colorAt, h1, h2]

theorem colorAt_odd_even (p : CFAPattern) (r c : ℕ) : p.colorAt (2 * r + 1) (2 * c) = p.c10 := by
  have h1 : (2 * r + 1) % 2 = 1 := by omega
  have h2 : (2 * c) % 2 = 0 := by omega
  simp [CFAPattern.colorAt, h1, h2]

theorem colorAt_odd_odd (p : CFAPattern) (r c : ℕ) : p.colorAt (2 * r + 1) (2 * c + 1) = p.c11 := by
  have h1 : (2 * r + 1) % 2 = 1 := by omega
  have h2 : (2 * c + 1) % 2 = 1 := by omega
  simp [CFAPattern.colorAt, h1, h2]

theorem axisParam_zero (N : ℕ) : axisParam N 0 = (0, 0) := by
  have hM : (0 : ℚ) ≤ ((N - 1 : ℕ) : ℚ) := by positivity
  simp [axisParam, min_eq_left hM]

theorem axisParam_one (N : ℕ) (h : 2 ≤ N) : axisParam N 1 = (N - 2, 1) := by
  have hM1 : (1 : ℕ) ≤ N - 1 := by omega
  have hM : (0 : ℚ) ≤ ((N - 1 : ℕ) : ℚ) := by positivity
  have hmin : min ((N - 1 : ℕ) : ℚ) ((N - 1 : ℕ) : ℚ) = ((N - 1 : ℕ) : ℚ) := min_self _
  have hfloor : Int.floor (((N - 1 : ℕ) : ℚ)) = ((N - 1 : ℕ) : ℤ) := Int.floor_natCast _
  have hsub : N - 1 - 1 = N - 2 := by omega
  have hmin2 : min (N - 1) (N - 2) = N - 2 := by omega
  have hcast : ((N - 1 : ℕ) : ℚ) - ((N - 2 : ℕ) : ℚ) = 1 := by
    have : (N - 2 : ℕ) + 1 = N - 1 := by omega
    rw [← this]
    push_cast
    ring
  simp [axisParam, one_mul, hmin, max_eq_right hM, hfloor, hsub, hmin2, hcast]

theorem axisParam_lattice (N i : ℕ) (h : 2 ≤ N) (hi : i ≤ N - 2) :
    axisParam N (latticeCoord N i) = (i, 0) := by
  simp only [latticeCoord]
  have hM0 : ((N - 1 : ℕ) : ℚ) ≠ 0 := by
    have : (0 : ℕ) < N - 1 := by omega
    positivity
  have ht : ((i : ℚ) / ((N - 1 : ℕ) : ℚ)) * ((N - 1 : ℕ) : ℚ) = (i : ℚ) :=
    div_mul_cancel₀ _ hM0
  have hle : (i : ℚ) ≤ ((N - 1 : ℕ) : ℚ) := by
    exact_mod_cast Nat.cast_le.mpr (by omega : i ≤ N - 1)
  have h0 : (0 : ℚ) ≤ (i : ℚ) := by positivity
  have hfloor : Int.floor ((i : ℚ)) = (i : ℤ) := Int.floor_natCast _
  have hmin2 : min i (N - 1 - 1) = i := by omega
  simp [axisParam, ht, min_eq_left hle, max_eq_right h0, hfloor, hmin2]

theorem axisParam_mid (N i : ℕ) (h : 2 ≤ N) (hi : i ≤ N - 2) :
    axisParam N (midCoord N i) = (i, 1/2) := by
  simp only [midCoord]
  have hM0 : ((N - 1 : ℕ) : ℚ) ≠ 0 := by
    have : (0 : ℕ) < N - 1 := by omega
    positivity
  have ht : (((i : ℚ) + 1/2) / ((N - 1 : ℕ) : ℚ)) * ((N - 1 : ℕ) : ℚ) = (i : ℚ) + 1/2 :=
    div_mul_cancel₀ _ hM0
  have hle : (i : ℚ) + 1/2 ≤ ((N - 1 : ℕ) : ℚ) := by
    have h1 : ((i + 1 : ℕ) : ℚ) ≤ ((N - 1 : ℕ) : ℚ) := Nat.cast_le.mpr (by omega)
    push_cast at h1
    linarith
  have h0 : (0 : ℚ) ≤ (i : ℚ) + 1/2 := by positivity
  have hfloor : Int.floor ((i : ℚ) + 1/2) = (i : ℤ) := by
    rw [show ((i : ℚ) + 1/2) = ((i : ℤ) : ℚ) + 1/2 by push_cast; ring]
    rw [Int.floor_int_add]
    norm_num
  have hmin2 : min i (N - 1 - 1) = i := by omega
  have hsub : ((i : ℚ) + 1/2) - (i : ℚ) = 1/2 := by ring
  simp only [axisParam]
  rw [ht, min_eq_left hle, max_eq_right h0, hfloor, Int.toNat_natCast, hmin2, hsub]

theorem latticeCoord_top (N : ℕ) (h : 2 ≤ N) : latticeCoord N (N - 1) = 1 := by
  have hM0 : ((N - 1 : ℕ) : ℚ) ≠ 0 := by
    have : (0 : ℕ) < N - 1 := by omega
    positivity
  simp [latticeCoord, div_self hM0]

/-- On a lattice coordinate `j ≤ N - 1` the axis parameter is either the
interior pair `(j, 0)` or, at the top edge, `(N - 2, 1)`. -/
theorem axisParam_lattice_cases (N j : ℕ) (h : 2 ≤ N) (hj : j ≤ N - 1) :
    (j ≤ N - 2 ∧ axisParam N (latticeCoord N j) = (j, 0)) ∨
      (j = N - 1 ∧ axisParam N (latticeCoord N j) = (N - 2, 1)) := by
  rcases Nat.lt_or_ge j (N - 1) with hlt | hge
  · exact Or.inl ⟨by omega, axisParam_lattice N j h (by omega)⟩
  · have hj' : j = N - 1 := by omega
    refine Or.inr ⟨hj', ?_⟩
    rw [hj', latticeCoord_top N h]
    exact axisParam_one N h

theorem mix3_half (x y : Vec3) :
    mix3 x y (1/2) = ⟨(x.r + y.r) / 2, (x.g + y.g) / 2, (x.b + y.b) / 2⟩ := by
  simp only [mix3, mix, Vec3.mk.injEq]
  exact ⟨by ring, by ring, by ring⟩

theorem mix3_inv_two (x y : Vec3) :
    mix3 x y (2⁻¹ : ℚ) = ⟨(x.r + y.r) / 2, (x.g + y.g) / 2, (x.b + y.b) / 2⟩ := by
  rw [show ((2⁻¹ : ℚ)) = 1/2 by norm_num]
  exact mix3_half x y

/-! ## Claim theorems -/

/-- C7: with brightness 0, contrast 1, saturation 1, no LUT, no watermark
(and the neighborhood stages disabled), the Adjustment Kernel is the
identity on every pixel whose components lie in [0,1], and the GPU
fragment program likewise returns the sampled pixel unchanged when its
LUT and watermark flags are off. -/
theorem neutralParamsIdentity (luma : Vec3 → ℚ) (u : ShaderUniforms) (vx vy : ℚ)
    (hL : u.u_useLut = false) (hW : u.u_useWatermark = false)
    (hc : inUnit (u.u_image vx vy).rgb) :
    specAdjustPixel luma ⟨0, 1, 1, none, none⟩ vx vy (u.u_image vx vy).rgb =
        (u.u_image vx vy).rgb ∧
      fragmentMainWebGL2 u vx vy = u.u_image vx vy := by
  constructor
  · show specSaturation luma 1 (specContrast 1 (specBrightness 0 _)) = _
    rw [specBrightness_zero _ hc, specContrast_one _ hc, specSaturation_one _ _ hc]
  · simp [fragmentMainWebGL2, hL, hW]

/-- Witness for C7 at a concrete pixel and uniform state. -/
theorem neutralParamsIdentity_witness :
    specAdjustPixel (fun c => (c.r + c.g + c.b) / 3) ⟨0, 1, 1, none, none⟩ 0 0
        ((Vec4.mk (1/4) (1/2) (3/4) 1).rgb) = (Vec4.mk (1/4) (1/2) (3/4) 1).rgb ∧
      fragmentMainWebGL2
        { u_image := fun _ _ => ⟨1/4, 1/2, 3/4, 1⟩
          u_lut := fun c => c
          u_useLut := false
          u_watermark := fun _ _ => ⟨0, 0, 0, 0⟩
          u_useWatermark := false
          u_watermarkRect := ⟨0, 0, 0, 0⟩
          u_watermarkOpacity := 0 } 0 0 = ⟨1/4, 1/2, 3/4, 1⟩ :=
  neutralParamsIdentity (fun c => (c.r + c.g + c.b) / 3)
    { u_image := fun _ _ => ⟨1/4, 1/2, 3/4, 1⟩
      u_lut := fun c => c
      u_useLut := false
      u_watermark := fun _ _ => ⟨0, 0, 0, 0⟩
      u_useWatermark := false
      u_watermarkRect := ⟨0, 0, 0, 0⟩
      u_watermarkOpacity := 0 } 0 0 rfl rfl
    (by norm_num [inUnit, Vec4.rgb])

/-- C3: when the WebGL2 context is unavailable but WebGL1 is, the engine
constructor succeeds (no failure) and records the fallback in its
`isWebGL2` field, which the caller can read and which differs from the
full-featured outcome; rendering on the fallback engine is the plain
passthrough for every option set — the LUT and watermark stages are
no-ops rather than errors. -/
theorem webgl1FallbackPassthroughObservable :
    engineInit false true = Except.ok ⟨false⟩ ∧
      engineInit true true = Except.ok ⟨true⟩ ∧
      (∀ image opts vx vy, renderPixel ⟨false⟩ image opts vx vy = image vx vy) := by
  refine ⟨rfl, rfl, fun image opts vx vy => ?_⟩
  simp [renderPixel, fragmentMainWebGL1]

/-- C10: `isRaw` returns true exactly when the lowercased file name ends
with one of the six raw extensions; the processing loop routes exactly the
raw files to the RAW decoder and everything else (including names that
merely contain such an extension without ending in it) to the standard
image decoder. -/
theorem isRawExtensionRouting :
    (∀ name : List Char,
        (isRaw name = true ↔ ∃ ext ∈ rawExtensions, ext <:+ name.map Char.toLower) ∧
        (routeDecoder name = Decoder.rawDecoder ↔ isRaw name = true) ∧
        (routeDecoder name = Decoder.standardDecoder ↔ isRaw name = false)) ∧
      isRaw "photo.ARW".toList = true ∧
      isRaw "photo.arw.txt".toList = false ∧
      routeDecoder "IMG_0001.cr2".toList = Decoder.rawDecoder ∧
      routeDecoder "IMG_0001.jpg".toList = Decoder.standardDecoder := by
  refine ⟨fun name => ⟨?_, ?_, ?_⟩, by decide, by decide, by decide, by decide⟩
  · simp [isRaw, List.any_eq_true, List.isSuffixOf_iff_suffix]
  · constructor
    · intro h
      by_contra hn
      simp [routeDecoder, hn] at h
    · intro h
      simp [routeDecoder, h]
  · constructor
    · intro h
      by_contra hn
      simp only [Bool.not_eq_false] at hn
      simp [routeDecoder, hn] at h
    · intro h
      simp [routeDecoder, h]

/-- C6: with the watermark bound (and no LUT), a pixel whose
rectangle-relative coordinate falls outside [0,1]² is left unchanged by
the fragment program, and a pixel inside is alpha-blended toward the
watermark color by the factor watermark-alpha × opacity. -/
theorem watermarkInsideOutsideBlend (u : ShaderUniforms) (vx vy : ℚ)
    (hW : u.u_useWatermark = true) (hL : u.u_useLut = false) :
    (¬(0 ≤ (vx - u.u_watermarkRect.x) / u.u_watermarkRect.w ∧
          (vx - u.u_watermarkRect.x) / u.u_watermarkRect.w ≤ 1 ∧
          0 ≤ (vy - u.u_watermarkRect.y) / u.u_watermarkRect.h ∧
          (vy - u.u_watermarkRect.y) / u.u_watermarkRect.h ≤ 1) →
        fragmentMainWebGL2 u vx vy = u.u_image vx vy) ∧
      ((0 ≤ (vx - u.u_watermarkRect.x) / u.u_watermarkRect.w ∧
          (vx - u.u_watermarkRect.x) / u.u_watermarkRect.w ≤ 1 ∧
          0 ≤ (vy - u.u_watermarkRect.y) / u.u_watermarkRect.h ∧
          (vy - u.u_watermarkRect.y) / u.u_watermarkRect.h ≤ 1) →
        fragmentMainWebGL2 u vx vy =
          (u.u_image vx vy).setRgb
            (mix3 (u.u_image vx vy).rgb
              (u.u_watermark ((vx - u.u_watermarkRect.x) / u.u_watermarkRect.w)
                ((vy - u.u_watermarkRect.y) / u.u_watermarkRect.h)).rgb
              ((u.u_watermark ((vx - u.u_watermarkRect.x) / u.u_watermarkRect.w)
                  ((vy - u.u_watermarkRect.y) / u.u_watermarkRect.h)).a *
                u.u_watermarkOpacity))) := by
  constructor
  · intro h
    simp [fragmentMainWebGL2, hW, hL, h]
  · intro h
    simp [fragmentMainWebGL2, hW, hL, h]

/-- Witness for C6, instantiating the spec scenario: rectangle
`{x:0.8, y:0.8, w:0.15, h:0.15}` at opacity 0.5 over a uniform white
image leaves the outside pixel (0.5, 0.5) pure white and blends the
inside pixel (0.875, 0.875) exactly halfway toward the blue watermark
color. -/
theorem watermarkInsideOutsideBlend_witness :
    fragmentMainWebGL2 scenarioUniforms (1/2) (1/2) = ⟨1, 1, 1, 1⟩ ∧
      fragmentMainWebGL2 scenarioUniforms (7/8) (7/8) = ⟨1/2, 1/2, 1, 1⟩ := by
  constructor
  · rw [(watermarkInsideOutsideBlend scenarioUniforms (1/2) (1/2) rfl rfl).1
      (by norm_num [scenarioUniforms, defaultWatermarkRect])]
    simp [scenarioUniforms]
  · rw [(watermarkInsideOutsideBlend scenarioUniforms (7/8) (7/8) rfl rfl).2
      (by norm_num [scenarioUniforms, defaultWatermarkRect])]
    norm_num [scenarioUniforms, defaultWatermarkRect, Vec4.setRgb, Vec4.rgb, mix3, mix]

/-- C9: `render` substitutes the defaults through JS falsy-or expressions,
so a caller-supplied watermark opacity of exactly 0 becomes 0.5 (and an
absent rectangle becomes `[0.8, 0.8, 0.15, 0.15]`); rendering a uniform
white image with watermark opacity 0 therefore blends the pixel at
(0.875, 0.875) — inside the default rectangle — 50% toward the (black,
alpha 1) watermark color instead of leaving it white. -/
theorem falsyOpacityDefaultsToHalf :
    (∀ (img wmImg : ℚ → ℚ → Vec4) (rectOpt : Option Rect),
        (setupUniforms true img ⟨none, some ⟨some wmImg, rectOpt, 0⟩⟩).u_watermarkOpacity
            = 1/2 ∧
          (setupUniforms true img ⟨none, some ⟨some wmImg, none, 0⟩⟩).u_watermarkRect
            = defaultWatermarkRect ∧
          (setupUniforms true img ⟨none, some ⟨some wmImg, rectOpt, 0⟩⟩).u_useWatermark
            = true) ∧
      renderPixel ⟨true⟩ (fun _ _ => ⟨1, 1, 1, 1⟩)
          ⟨none, some ⟨some (fun _ _ => ⟨0, 0, 0, 1⟩), none, 0⟩⟩ (7/8) (7/8)
        = ⟨1/2, 1/2, 1/2, 1⟩ ∧
      (Vec4.mk (1/2) (1/2) (1/2) 1 ≠ Vec4.mk 1 1 1 1) := by
  refine ⟨fun img wmImg rectOpt => ⟨?_, ?_, ?_⟩, ?_, by norm_num [Vec4.mk.injEq]⟩
  · simp [setupUniforms, jsOrDefault]
  · simp [setupUniforms, jsOrDefault]
  · simp [setupUniforms]
  · norm_num [renderPixel, fragmentMainWebGL2, setupUniforms, jsOrDefault,
      defaultWatermarkRect, mix3, mix, Vec4.setRgb, Vec4.rgb]

/-- C8: for every LUT of edge size `N ≥ 2`, trilinear sampling at any of
the eight cube corner coordinates returns exactly the corner lattice
value, and sampling at the midpoint between two adjacent lattice
coordinates (along any of the three axes, the other two axes on lattice
coordinates) returns the arithmetic mean of the two lattice values; the
`midCoord` used is literally the midpoint of the two adjacent lattice
coordinates. -/
theorem trilinearCornerAndMidpoint (N : ℕ) (L : ℕ → ℕ → ℕ → Vec3) (h : 2 ≤ N) :
    (∀ i : ℕ, midCoord N i = (latticeCoord N i + latticeCoord N (i + 1)) / 2) ∧
      (∀ e1 e2 e3 : Bool,
        trilinearSample N L ⟨cornerCoord e1, cornerCoord e2, cornerCoord e3⟩ =
          L (cornerIndex N e1) (cornerIndex N e2) (cornerIndex N e3)) ∧
      (∀ i j k : ℕ, i ≤ N - 2 → j ≤ N - 1 → k ≤ N - 1 →
        trilinearSample N L ⟨midCoord N i, latticeCoord N j, latticeCoord N k⟩ =
          ⟨((L i j k).r + (L (i + 1) j k).r) / 2,
           ((L i j k).g + (L (i + 1) j k).g) / 2,
           ((L i j k).b + (L (i + 1) j k).b) / 2⟩) ∧
      (∀ i j k : ℕ, i ≤ N - 1 → j ≤ N - 2 → k ≤ N - 1 →
        trilinearSample N L ⟨latticeCoord N i, midCoord N j, latticeCoord N k⟩ =
          ⟨((L i j k).r + (L i (j + 1) k).r) / 2,
           ((L i j k).g + (L i (j + 1) k).g) / 2,
           ((L i j k).b + (L i (j + 1) k).b) / 2⟩) ∧
      (∀ i j k : ℕ, i ≤ N - 1 → j ≤ N - 1 → k ≤ N - 2 →
        trilinearSample N L ⟨latticeCoord N i, latticeCoord N j, midCoord N k⟩ =
          ⟨((L i j k).r + (L i j (k + 1)).r) / 2,
           ((L i j k).g + (L i j (k + 1)).g) / 2,
           ((L i j k).b + (L i j (k + 1)).b) / 2⟩) := by
  have hM0 : ((N - 1 : ℕ) : ℚ) ≠ 0 := by
    have : (0 : ℕ) < N - 1 := by omega
    positivity
  have e2 : N - 2 + 1 = N - 1 := by omega
  refine ⟨?_, ?_, ?_, ?_, ?_⟩
  · intro i
    simp only [midCoord, latticeCoord]
    push_cast
    field_simp
    ring
  · intro e1 e2' e3
    cases e1 <;> cases e2' <;> cases e3 <;>
      simp [cornerCoord, cornerIndex, trilinearSample, axisParam_one N h, axisParam_zero N,
        mix3_zero, mix3_one, e2]
  · intro i j k hi hj hk
    have hmid := axisParam_mid N i h hi
    rcases axisParam_lattice_cases N j h hj with ⟨-, hpj⟩ | ⟨hjeq, hpj⟩
    · rcases axisParam_lattice_cases N k h hk with ⟨-, hpk⟩ | ⟨hkeq, hpk⟩
      · simp [trilinearSample, hmid, hpj, hpk, mix3_zero, mix3_one, mix3_half, mix3_inv_two, e2]
      · subst hkeq
        simp [trilinearSample, hmid, hpj, hpk, mix3_zero, mix3_one, mix3_half, mix3_inv_two, e2]
    · rcases axisParam_lattice_cases N k h hk with ⟨-, hpk⟩ | ⟨hkeq, hpk⟩
      · subst hjeq
        simp [trilinearSample, hmid, hpj, hpk, mix3_zero, mix3_one, mix3_half, mix3_inv_two, e2]
      · subst hjeq
        subst hkeq
        simp [trilinearSample, hmid, hpj, hpk, mix3_zero, mix3_one, mix3_half, mix3_inv_two, e2]
  · intro i j k hi hj hk
    have hmid := axisParam_mid N j h hj
    rcases axisParam_lattice_cases N i h hi with ⟨-, hpi⟩ | ⟨hieq, hpi⟩
    · rcases axisParam_lattice_cases N k h hk with ⟨-, hpk⟩ | ⟨hkeq, hpk⟩
      · simp [trilinearSample, hmid, hpi, hpk, mix3_zero, mix3_one, mix3_half, mix3_inv_two, e2]
      · subst hkeq
        simp [trilinearSample, hmid, hpi, hpk, mix3_zero, mix3_one, mix3_half, mix3_inv_two, e2]
    · rcases axisParam_lattice_cases N k h hk with ⟨-, hpk⟩ | ⟨hkeq, hpk⟩
      · subst hieq
        simp [trilinearSample, hmid, hpi, hpk, mix3_zero, mix3_one, mix3_half, mix3_inv_two, e2]
      · subst hieq
        subst hkeq
        simp [trilinearSample, hmid, hpi, hpk, mix3_zero, mix3_one, mix3_half, mix3_inv_two, e2]
  · intro i j k hi hj hk
    have hmid := axisParam_mid N k h hk
    rcases axisParam_lattice_cases N i h hi with ⟨-, hpi⟩ | ⟨hieq, hpi⟩
    · rcases axisParam_lattice_cases N j h hj with ⟨-, hpj⟩ | ⟨hjeq, hpj⟩
      · simp [trilinearSample, hmid, hpi, hpj, mix3_zero, mix3_one, mix3_half, mix3_inv_two, e2]
      · subst hjeq
        simp [trilinearSample, hmid, hpi, hpj, mix3_zero, mix3_one, mix3_half, mix3_inv_two, e2]
    · rcases axisParam_lattice_cases N j h hj with ⟨-, hpj⟩ | ⟨hjeq, hpj⟩
      · subst hieq
        simp [trilinearSample, hmid, hpi, hpj, mix3_zero, mix3_one, mix3_half, mix3_inv_two, e2]
      · subst hieq
        subst hjeq
        simp [trilinearSample, hmid, hpi, hpj, mix3_zero, mix3_one, mix3_half, mix3_inv_two, e2]

/-- Witness for C8 on a concrete edge-2 LUT: sampling the corner (1,0,1)
returns the corner lattice value exactly, and sampling the midpoint
between the two adjacent red-axis lattice coordinates returns their
arithmetic mean. -/
theorem trilinearCornerAndMidpoint_witness :
    trilinearSample 2 (fun i j k => ⟨(i : ℚ), (j : ℚ), (k : ℚ)⟩) ⟨1, 0, 1⟩ = ⟨1, 0, 1⟩ ∧
      trilinearSample 2 (fun i j k => ⟨(i : ℚ), (j : ℚ), (k : ℚ)⟩) ⟨1/2, 0, 0⟩ =
        ⟨1/2, 0, 0⟩ := by
  have h := trilinearCornerAndMidpoint 2 (fun i j k => ⟨(i : ℚ), (j : ℚ), (k : ℚ)⟩)
    (by norm_num)
  constructor
  · have hc := h.2.1 true false true
    norm_num [cornerCoord, cornerIndex] at hc
    exact hc
  · have hm := h.2.2.1 0 0 0 (by norm_num) (by norm_num) (by norm_num)
    norm_num [midCoord, latticeCoord] at hm
    exact hm

/-- C1 counterexample: at a black pixel with brightness 0.5 (contrast 1,
saturation 1, no LUT, no watermark, threshold/denoise off), the §4.2
ordered pipeline brightens every channel to 0.5 while the GPU fragment
program returns the pixel unchanged — the shader implements no
brightness, contrast or saturation stage, so the engines disagree. -/
theorem gpuShaderOmitsBrightnessStage :
    specAdjustPixel (fun c => (c.r + c.g + c.b) / 3) ⟨1/2, 1, 1, none, none⟩ 0 0 ⟨0, 0, 0⟩ =
        ⟨1/2, 1/2, 1/2⟩ ∧
      (fragmentMainWebGL2
          { u_image := fun _ _ => ⟨0, 0, 0, 1⟩
            u_lut := fun c => c
            u_useLut := false
            u_watermark := fun _ _ => ⟨0, 0, 0, 0⟩
            u_useWatermark := false
            u_watermarkRect := ⟨0, 0, 0, 0⟩
            u_watermarkOpacity := 0 } 0 0).rgb = ⟨0, 0, 0⟩ ∧
      (Vec3.mk (1/2) (1/2) (1/2) ≠ ⟨0, 0, 0⟩) := by
  refine ⟨?_, ?_, ?_⟩
  · norm_num [specAdjustPixel, specBrightness, specContrast, specSaturation, clamp01]
  · norm_num [fragmentMainWebGL2, Vec4.rgb]
  · norm_num [Vec3.mk.injEq]

/-- C1 amended: the GPU fragment program implements only the (optional)
LUT and (optional) watermark stages of §4.2, in that order; it agrees
with the §4.2 ordered pipeline exactly when brightness is 0, contrast 1,
saturation 1 and the neighborhood stages are disabled, for every pixel
with components in [0,1] (the watermark rectangle, when active, having
positive width and height). -/
theorem gpuMatchesSpecPipelineNeutralBCS (luma : Vec3 → ℚ) (u : ShaderUniforms)
    (vx vy : ℚ)
    (hrw : 0 < u.u_watermarkRect.w) (hrh : 0 < u.u_watermarkRect.h)
    (hc : inUnit (u.u_image vx vy).rgb) :
    specAdjustPixel luma
        ⟨0, 1, 1,
          (if u.u_useLut then some u.u_lut else none),
          (if u.u_useWatermark then
            some ⟨u.u_watermark, u.u_watermarkRect, u.u_watermarkOpacity⟩
          else none)⟩ vx vy (u.u_image vx vy).rgb
      = (fragmentMainWebGL2 u vx vy).rgb := by
  have hneutral :
      specSaturation luma 1 (specContrast 1 (specBrightness 0 (u.u_image vx vy).rgb)) =
        (u.u_image vx vy).rgb := by
    rw [specBrightness_zero _ hc, specContrast_one _ hc, specSaturation_one _ _ hc]
  have hcond :
      (0 ≤ (vx - u.u_watermarkRect.x) / u.u_watermarkRect.w ∧
          (vx - u.u_watermarkRect.x) / u.u_watermarkRect.w ≤ 1 ∧
          0 ≤ (vy - u.u_watermarkRect.y) / u.u_watermarkRect.h ∧
          (vy - u.u_watermarkRect.y) / u.u_watermarkRect.h ≤ 1) ↔
        (u.u_watermarkRect.x ≤ vx ∧ vx ≤ u.u_watermarkRect.x + u.u_watermarkRect.w ∧
          u.u_watermarkRect.y ≤ vy ∧ vy ≤ u.u_watermarkRect.y + u.u_watermarkRect.h) := by
    have e1 : (0 ≤ (vx - u.u_watermarkRect.x) / u.u_watermarkRect.w) ↔
        u.u_watermarkRect.x ≤ vx := by
      rw [le_div_iff₀ hrw, zero_mul, sub_nonneg]
    have e2 : ((vx - u.u_watermarkRect.x) / u.u_watermarkRect.w ≤ 1) ↔
        vx ≤ u.u_watermarkRect.x + u.u_watermarkRect.w := by
      rw [div_le_one hrw, sub_le_iff_le_add, add_comm]
    have e3 : (0 ≤ (vy - u.u_watermarkRect.y) / u.u_watermarkRect.h) ↔
        u.u_watermarkRect.y ≤ vy := by
      rw [le_div_iff₀ hrh, zero_mul, sub_nonneg]
    have e4 : ((vy - u.u_watermarkRect.y) / u.u_watermarkRect.h ≤ 1) ↔
        vy ≤ u.u_watermarkRect.y + u.u_watermarkRect.h := by
      rw [div_le_one hrh, sub_le_iff_le_add, add_comm]
    rw [e1, e2, e3, e4]
  cases hL : u.u_useLut <;> cases hW : u.u_useWatermark
  · simp only [specAdjustPixel, hL, hW, if_neg Bool.false_ne_true, hneutral]
    simp [fragmentMainWebGL2, hL, hW, Vec4.rgb]
  · simp only [specAdjustPixel, hL, hW, if_neg Bool.false_ne_true, if_pos rfl, hneutral]
    by_cases hin : u.u_watermarkRect.x ≤ vx ∧ vx ≤ u.u_watermarkRect.x + u.u_watermarkRect.w ∧
        u.u_watermarkRect.y ≤ vy ∧ vy ≤ u.u_watermarkRect.y + u.u_watermarkRect.h
    · simp [fragmentMainWebGL2, hL, hW, specWatermarkStage, hin, hcond.mpr hin,
        Vec4.setRgb, Vec4.rgb]
    · have hout : ¬(0 ≤ (vx - u.u_watermarkRect.x) / u.u_watermarkRect.w ∧
          (vx - u.u_watermarkRect.x) / u.u_watermarkRect.w ≤ 1 ∧
          0 ≤ (vy - u.u_watermarkRect.y) / u.u_watermarkRect.h ∧
          (vy - u.u_watermarkRect.y) / u.u_watermarkRect.h ≤ 1) :=
        fun hx => hin (hcond.mp hx)
      simp [fragmentMainWebGL2, hL, hW, specWatermarkStage, hin, hout, Vec4.rgb]
  · simp only [specAdjustPixel, hL, hW, if_neg Bool.false_ne_true, if_pos rfl, hneutral]
    simp [fragmentMainWebGL2, hL, hW, Vec4.setRgb, Vec4.rgb]
  · simp only [specAdjustPixel, hL, hW, if_pos rfl, hneutral]
    by_cases hin : u.u_watermarkRect.x ≤ vx ∧ vx ≤ u.u_watermarkRect.x + u.u_watermarkRect.w ∧
        u.u_watermarkRect.y ≤ vy ∧ vy ≤ u.u_watermarkRect.y + u.u_watermarkRect.h
    · simp [fragmentMainWebGL2, hL, hW, specWatermarkStage, hin, hcond.mpr hin,
        Vec4.setRgb, Vec4.rgb]
    · have hout : ¬(0 ≤ (vx - u.u_watermarkRect.x) / u.u_watermarkRect.w ∧
          (vx - u.u_watermarkRect.x) / u.u_watermarkRect.w ≤ 1 ∧
          0 ≤ (vy - u.u_watermarkRect.y) / u.u_watermarkRect.h ∧
          (vy - u.u_watermarkRect.y) / u.u_watermarkRect.h ≤ 1) :=
        fun hx => hin (hcond.mp hx)
      simp [fragmentMainWebGL2, hL, hW, specWatermarkStage, hin, hout, Vec4.setRgb, Vec4.rgb]

/-- Witness for C1's amended theorem at the concrete scenario uniforms
(watermark active, no LUT) and pixel (0.875, 0.875). -/
theorem gpuMatchesSpecPipelineNeutralBCS_witness :
    specAdjustPixel (fun c => (c.r + c.g + c.b) / 3)
        ⟨0, 1, 1,
          (if scenarioUniforms.u_useLut then some scenarioUniforms.u_lut else none),
          (if scenarioUniforms.u_useWatermark then
            some ⟨scenarioUniforms.u_watermark, scenarioUniforms.u_watermarkRect,
              scenarioUniforms.u_watermarkOpacity⟩
          else none)⟩ (7/8) (7/8) ((scenarioUniforms.u_image (7/8) (7/8)).rgb)
      = (fragmentMainWebGL2 scenarioUniforms (7/8) (7/8)).rgb :=
  gpuMatchesSpecPipelineNeutralBCS (fun c => (c.r + c.g + c.b) / 3) scenarioUniforms
    (7/8) (7/8)
    (by norm_num [scenarioUniforms, defaultWatermarkRect])
    (by norm_num [scenarioUniforms, defaultWatermarkRect])
    (by norm_num [scenarioUniforms, inUnit, Vec4.rgb])

/-- C2: the repository's demosaic hardcodes an RGGB layout, so on a BGGR
sensor whose synthetic mosaic holds 0.9 on every red cell, 0.5 on every
green cell and 0.1 on every blue cell, every output pixel comes out as
(0.1, 0.5, 0.9) — the red and blue channels swapped — while the
CFA-consulting demosaic the spec requires reconstructs the known values
(0.9, 0.5, 0.1) for each of the four supported patterns. -/
theorem rggbHardcodedDemosaicSwapsChannelsOnBGGR :
    (∀ r c : ℕ,
        demosaicSuperpixelRGGB (synthMosaic (patternBGGR.colorAt) (9/10) (1/2) (1/10)) r c =
          ⟨1/10, 1/2, 9/10⟩) ∧
      (∀ (vr vg vb : ℚ) (r c : ℕ),
        demosaicSuperpixel (patternRGGB.colorAt)
            (synthMosaic (patternRGGB.colorAt) vr vg vb) r c = ⟨vr, vg, vb⟩) ∧
      (∀ (vr vg vb : ℚ) (r c : ℕ),
        demosaicSuperpixel (patternBGGR.colorAt)
            (synthMosaic (patternBGGR.colorAt) vr vg vb) r c = ⟨vr, vg, vb⟩) ∧
      (∀ (vr vg vb : ℚ) (r c : ℕ),
        demosaicSuperpixel (patternGRBG.colorAt)
            (synthMosaic (patternGRBG.colorAt) vr vg vb) r c = ⟨vr, vg, vb⟩) ∧
      (∀ (vr vg vb : ℚ) (r c : ℕ),
        demosaicSuperpixel (patternGBRG.colorAt)
            (synthMosaic (patternGBRG.colorAt) vr vg vb) r c = ⟨vr, vg, vb⟩) ∧
      (Vec3.mk (1/10) (1/2) (9/10) ≠ ⟨9/10, 1/2, 1/10⟩) := by
  refine ⟨?_, ?_, ?_, ?_, ?_, by norm_num [Vec3.mk.injEq]⟩
  · intro r c
    norm_num [demosaicSuperpixelRGGB, synthMosaic, colorAt_even_even, colorAt_even_odd,
      colorAt_odd_even, colorAt_odd_odd, patternBGGR]
  · intro vr vg vb r c
    simp [demosaicSuperpixel, synthMosaic, colorAt_even_even, colorAt_even_odd,
      colorAt_odd_even, colorAt_odd_odd, patternRGGB]
  · intro vr vg vb r c
    simp [demosaicSuperpixel, synthMosaic, colorAt_even_even, colorAt_even_odd,
      colorAt_odd_even, colorAt_odd_odd, patternBGGR]
  · intro vr vg vb r c
    simp [demosaicSuperpixel, synthMosaic, colorAt_even_even, colorAt_even_odd,
      colorAt_odd_even, colorAt_odd_odd, patternGRBG]
  · intro vr vg vb r c
    simp [demosaicSuperpixel, synthMosaic, colorAt_even_even, colorAt_even_odd,
      colorAt_odd_even, colorAt_odd_odd, patternGBRG]

/-- C4: the browser path updates the progress fraction at dispatch, not
on terminal events.  For the batch [job 0 decodes and completes, job 1
has a corrupt source], the full trace is explicit: the only progress
event (50) is emitted immediately after job 0's worker dispatch — before
any terminal event — no progress event accompanies job 1's terminal
`error` or job 0's terminal `complete`, and the final reported fraction
stays 50 although both jobs reached terminal states (a terminal-only
fraction would have to end at 2/2 · 100 = 100). -/
theorem browserProgressUpdatesAtDispatch :
    browserTrace [⟨0, true, true⟩, ⟨1, false, true⟩] =
        [Event.status 0 Stage.processing, Event.dispatch 0, Event.progress 50,
         Event.status 1 Stage.processing, Event.status 1 Stage.error,
         Event.status 0 Stage.complete] ∧
      progressValues (browserTrace [⟨0, true, true⟩, ⟨1, false, true⟩]) = [50] ∧
      terminalCount (browserTrace [⟨0, true, true⟩, ⟨1, false, true⟩]) = 2 ∧
      ((50 : ℚ) ≠ ((2 : ℚ) / 2) * 100) := by
  have htrace : browserTrace [⟨0, true, true⟩, ⟨1, false, true⟩] =
      [Event.status 0 Stage.processing, Event.dispatch 0, Event.progress 50,
       Event.status 1 Stage.processing, Event.status 1 Stage.error,
       Event.status 0 Stage.complete] := by
    norm_num [browserTrace, loopTrace, workerTrace]
  refine ⟨htrace, ?_, ?_, by norm_num⟩
  · rw [htrace]
    rfl
  · rw [htrace]
    rfl

theorem filterMap_loopTrace (id n : ℕ) (jobs : List JobSpec) (completed : ℕ) :
    (loopTrace n jobs completed).filterMap (statusOf id) = loopStatusLog id jobs := by
  induction jobs generalizing completed with
  | nil => simp [loopTrace, loopStatusLog]
  | cons j rest ih =>
    by_cases hid : j.id = id <;> cases hd : j.decodeOk <;>
      simp [loopTrace, loopStatusLog, statusOf, hid, hd, ih]

theorem filterMap_workerTrace (id : ℕ) (jobs : List JobSpec) :
    (workerTrace jobs).filterMap (statusOf id) = workerStatusLog id jobs := by
  induction jobs with
  | nil => simp [workerTrace, workerStatusLog]
  | cons j rest ih =>
    by_cases hid : j.id = id <;> cases hd : j.decodeOk <;>
      simp [workerTrace, workerStatusLog, statusOf, hid, hd, ih]

theorem loopStatusLog_of_not_mem (id : ℕ) (jobs : List JobSpec)
    (h : id ∉ jobs.map JobSpec.id) : loopStatusLog id jobs = [] := by
  induction jobs with
  | nil => simp [loopStatusLog]
  | cons j rest ih =>
    simp only [List.map_cons, List.mem_cons, not_or] at h
    have hne : ¬(j.id = id) := fun he => h.1 he.symm
    simp [loopStatusLog, hne, ih h.2]

theorem workerStatusLog_of_not_mem (id : ℕ) (jobs : List JobSpec)
    (h : id ∉ jobs.map JobSpec.id) : workerStatusLog id jobs = [] := by
  induction jobs with
  | nil => simp [workerStatusLog]
  | cons j rest ih =>
    simp only [List.map_cons, List.mem_cons, not_or] at h
    have hne : ¬(j.id = id) := fun he => h.1 he.symm
    simp [workerStatusLog, hne, ih h.2]

theorem statusLogs_getLast (jobs : List JobSpec) (hnd : (jobs.map JobSpec.id).Nodup)
    (j : JobSpec) (hj : j ∈ jobs) :
    (loopStatusLog j.id jobs ++ workerStatusLog j.id jobs).getLast? = some (jobFate j) := by
  induction jobs with
  | nil => cases hj
  | cons k rest ih =>
    simp only [List.map_cons, List.nodup_cons] at hnd
    rcases List.mem_cons.mp hj with heq | hmem
    · subst heq
      have hloop : loopStatusLog j.id rest = [] := loopStatusLog_of_not_mem _ _ hnd.1
      have hworker : workerStatusLog j.id rest = [] := workerStatusLog_of_not_mem _ _ hnd.1
      cases hd : j.decodeOk <;> cases hw : j.workerOk <;>
        simp [loopStatusLog, workerStatusLog, hloop, hworker, hd, hw, jobFate]
    · have hne : ¬(k.id = j.id) := by
        intro he
        exact hnd.1 (he ▸ List.mem_map_of_mem JobSpec.id hmem)
      have hne2 : ¬(k.id = j.id ∧ k.decodeOk = true) := fun hx => hne hx.1
      simp only [loopStatusLog, workerStatusLog, if_neg hne, if_neg hne2, List.nil_append]
      exact ih hnd.2 hmem

/-- C5: in the browser batch loop a job whose source fails to decode is
caught at the job boundary and left with a terminal `error` status for
that job only; every job of the batch ends in the terminal state
determined by its own decode and worker outcome, independent of sibling
failures — no failure aborts the rest of the batch. -/
theorem jobFailureIsolatedPerJob (jobs : List JobSpec)
    (hnd : (jobs.map JobSpec.id).Nodup) (j : JobSpec) (hj : j ∈ jobs) :
    lastStatus (browserTrace jobs) j.id = some (jobFate j) := by
  unfold lastStatus browserTrace
  rw [List.filterMap_append, filterMap_loopTrace, filterMap_workerTrace]
  exact statusLogs_getLast jobs hnd j hj

/-- Witness for C5: the spec scenario of a 3-job batch whose middle job
has a corrupt source settles with jobs 0 and 2 `complete`, job 1 `error`
— 2 completed, 1 failed, and the failure did not abort the others. -/
theorem jobFailureIsolatedPerJob_witness :
    lastStatus (browserTrace [⟨0, true, true⟩, ⟨1, false, true⟩, ⟨2, true, true⟩]) 0 =
        some Stage.complete ∧
      lastStatus (browserTrace [⟨0, true, true⟩, ⟨1, false, true⟩, ⟨2, true, true⟩]) 1 =
        some Stage.error ∧
      lastStatus (browserTrace [⟨0, true, true⟩, ⟨1, false, true⟩, ⟨2, true, true⟩]) 2 =
        some Stage.complete ∧
      (([0, 1, 2].map
          (lastStatus (browserTrace [⟨0, true, true⟩, ⟨1, false, true⟩, ⟨2, true, true⟩]))).count
            (some Stage.complete) = 2 ∧
        ([0, 1, 2].map
          (lastStatus (browserTrace [⟨0, true, true⟩, ⟨1, false, true⟩, ⟨2, true, true⟩]))).count
            (some Stage.error) = 1) := by
  refine ⟨?_, ?_, ?_, ?_, ?_⟩
  · simpa using jobFailureIsolatedPerJob
      [⟨0, true, true⟩, ⟨1, false, true⟩, ⟨2, true, true⟩] (by decide)
      ⟨0, true, true⟩ (by decide)
  · simpa using jobFailureIsolatedPerJob
      [⟨0, true, true⟩, ⟨1, false, true⟩, ⟨2, true, true⟩] (by decide)
      ⟨1, false, true⟩ (by decide)
  · simpa using jobFailureIsolatedPerJob
      [⟨0, true, true⟩, ⟨1, false, true⟩, ⟨2, true, true⟩] (by decide)
      ⟨2, true, true⟩ (by decide)
  · decide
  · decide

end ClioBulk
